import Mathlib

/-!
Shallow embedding of the DocuFlow frontend (src/frontend/src/App.vue) and of
the vector-index insert contract, with theorems checking the specification's
claims against it.

The component's reactive refs become fields of `AppState`; each event handler
becomes a function from the pre-state (plus the outcome of its `fetch` call)
to the post-state, paired with the request it sent (`none` when the handler
returned before issuing a request).  JavaScript truthiness on strings
(`x || d` falls back on `undefined`/`null`/`""`) is embedded by `jsOr`;
a template-literal interpolation of a possibly-missing field by `jsTemplate`.
-/

namespace DocuFlow

/-- App.vue line 5: the backend base URL. -/
def API_URL : String := "http://localhost:8080"

/-- The fields of a browser `File` object that App.vue reads: `name`
(line 184), `size` (line 185) and MIME `type` (line 36). -/
structure FileInfo where
  name : String
  size : Nat
  type : String
deriving DecidableEq

/-- The component state: the reactive refs declared in App.vue lines 8-16. -/
structure AppState where
  selectedFile : Option FileInfo
  uploadCategory : String
  queryQuestion : String
  searchCategory : List String
  answer : String
  loading : Bool
  sources : List String
  uploadStatus : String
  isDragging : Bool
deriving DecidableEq

/-- The initial values of the refs (App.vue lines 8-16). -/
def initialState : AppState :=
  { selectedFile := none
    uploadCategory := "Umowy"
    queryQuestion := ""
    searchCategory := []
    answer := ""
    loading := false
    sources := []
    uploadStatus := ""
    isDragging := false }

/-- JavaScript `x || d` for a string-valued field `x` that may be missing:
`undefined`/`null` and the empty string are falsy and fall back to `d`. -/
def jsOr (v : Option String) (d : String) : String :=
  match v with
  | some s => if s = "" then d else s
  | none => d

/-- JavaScript template-literal interpolation of a possibly-missing field:
a missing value prints as the string "undefined". -/
def jsTemplate (v : Option String) : String := v.getD "undefined"

/-- Outcome of a `fetch` call as the handlers observe it: an ok response with
parsed JSON data, a non-ok response with parsed JSON data, or a thrown
exception (network failure or JSON parse failure). -/
inductive FetchOutcome (α : Type) where
  | ok (data : α)
  | notOk (data : α)
  | threw
deriving DecidableEq

/-- The JSON body the query endpoint answer is read from (App.vue lines
95-101): fields `answer`, `source_files` and `detail`, each possibly absent. -/
structure QueryResponseData where
  answer : Option String
  source_files : Option (List String)
  detail : Option String
deriving DecidableEq

/-- The JSON body the upload endpoint answer is read from (App.vue lines
58-64): fields `job_id` and `detail`, each possibly absent. -/
structure UploadResponseData where
  job_id : Option String
  detail : Option String
deriving DecidableEq

/-- The JSON payload POSTed to `/query` (App.vue lines 83-86): exactly the
fields `question` and `categories_to_search`. -/
structure QueryRequest where
  question : String
  categories_to_search : List String
deriving DecidableEq

/-- The request POSTed to the upload endpoint (App.vue lines 51-57): the
target URL (carrying the category as a query parameter) and the file sent
as the `file` field of the multipart form data. -/
structure UploadRequest where
  url : String
  formFile : FileInfo
deriving DecidableEq

/-- The default category list used when no search category is selected
(App.vue line 81). -/
def defaultCategoriesToSearch : List String := ["Umowy", "Medyczne", "Inne"]

/-- App.vue lines 73-108, `handleQuery`: guard on an empty question, build
the payload (selected categories, or all three when none are selected),
POST it, and consume the response. -/
def handleQuery (s : AppState) (o : FetchOutcome QueryResponseData) :
    AppState × Option QueryRequest :=
  if s.queryQuestion = "" then (s, none)
  else
    let categoriesToSearch :=
      if s.searchCategory.length > 0 then s.searchCategory
      else defaultCategoriesToSearch
    let payload : QueryRequest :=
      { question := s.queryQuestion, categories_to_search := categoriesToSearch }
    let s1 : AppState := { s with loading := true, answer := "", sources := [] }
    let s2 : AppState :=
      match o with
      | .ok d =>
          { s1 with answer := jsOr d.answer "No response."
                    sources := d.source_files.getD [] }
      | .notOk d =>
          { s1 with answer := "Error RAG: " ++ jsOr d.detail "Unknown error" }
      | .threw =>
          { s1 with answer := "Error connecting to the model." }
    ({ s2 with loading := false }, some payload)

/-- App.vue lines 43-71, `handleFileUpload`: guard on a missing file, POST
the file as multipart form data to the upload URL (category as a query
parameter), and consume the response. -/
def handleFileUpload (s : AppState) (o : FetchOutcome UploadResponseData) :
    AppState × Option UploadRequest :=
  match s.selectedFile with
  | none => ({ s with uploadStatus := "⚠️ Select the file before sending." }, none)
  | some file =>
    let s1 : AppState := { s with loading := true, uploadStatus := "" }
    let req : UploadRequest :=
      { url := API_URL ++ "/document/upload?category=" ++ s.uploadCategory
        formFile := file }
    let s2 : AppState :=
      match o with
      | .ok d =>
          { s1 with uploadStatus := "✅ Success! Job ID: " ++ jsTemplate d.job_id
                    selectedFile := none }
      | .notOk d =>
          { s1 with uploadStatus := "❌ Error: " ++ jsOr d.detail "Unknown error" }
      | .threw =>
          { s1 with uploadStatus := "❌ Network/API server error." }
    ({ s2 with loading := false }, some req)

/-- App.vue lines 33-41, `onDrop`: clear the dragging flag; accept the
dropped file as the selected file only when its MIME type is
`application/pdf`, otherwise set the rejection status message. -/
def onDrop (s : AppState) (dropped : Option FileInfo) : AppState :=
  let s1 : AppState := { s with isDragging := false }
  match dropped with
  | some f =>
      if f.type = "application/pdf" then { s1 with selectedFile := some f }
      else { s1 with uploadStatus := "Only PDF files are supported." }
  | none => { s1 with uploadStatus := "Only PDF files are supported." }

/-- The initial value of the upload category ref (App.vue line 9). -/
def uploadCategoryDefault : String := "Umowy"

/-- The `value` attributes of the upload category select options
(App.vue lines 195-197). -/
def uploadCategoryOptions : List String := ["Umowy", "Medyczne", "Inne"]

/-- The specification's category enumeration. -/
inductive Category where
  | Contract
  | Medical
  | Other
deriving DecidableEq

/-- The string value the frontend uses for each spec category (the select
options of App.vue lines 195-197: Contract = "Umowy", Medical = "Medyczne",
Other = "Inne"; line 196's visible label is "Dokumentacja Medyczna" but its
value is "Medyczne"). -/
def Category.value : Category → String
  | .Contract => "Umowy"
  | .Medical => "Medyczne"
  | .Other => "Inne"

/-- The display of `parseFloat(x.toFixed(2))` for a non-negative value equal
to `n` hundredths: `toFixed(2)` prints two decimals, `parseFloat` re-reads
them, and converting the number back to a string drops trailing zero
decimals. -/
def renderCents (n : Nat) : String :=
  if n % 100 = 0 then toString (n / 100)
  else if n % 10 = 0 then toString (n / 100) ++ "." ++ toString (n / 10 % 10)
  else toString (n / 100) ++ "." ++ toString (n / 10 % 10) ++ toString (n % 10)

/-- App.vue lines 19-25, `formatSize`: 0 maps to "0 Bytes"; otherwise the
unit index is `floor(log bytes / log 1024)` (embedded exactly as
`Nat.log 1024 bytes`), the displayed number is `bytes / 1024^i` rounded via
`toFixed(2)` then `parseFloat` (embedded over hundredths: JavaScript
`toFixed` rounds half away from zero, and `bytes / 1024^i` is exact in
double precision, so the printed hundredths are
`(200 * bytes + 1024^i) / (2 * 1024^i)` rounded down), and the unit is
`sizes[i]`, which for `i` past the end of the array is `undefined` and
concatenates as the string "undefined". -/
def formatSize (bytes : Nat) : String :=
  if bytes = 0 then "0 Bytes"
  else
    renderCents ((200 * bytes + 1024 ^ Nat.log 1024 bytes) /
        (2 * 1024 ^ Nat.log 1024 bytes)) ++ " " ++
      (["Bytes", "KB", "MB", "GB"].getD (Nat.log 1024 bytes) "undefined")

/-- Modelled from the spec: the Vector Index Client (spec §4.3) is not part
of the repository's source tree (only the Vue frontend is present), so its
entry type is taken from the spec's data model: an `EmbeddingVector` carries
`chunk_key = (document_id, ordinal)`, the vector, and the category. -/
structure EmbeddingVector where
  document_id : String
  ordinal : Nat
  vector : List Int
  category : String
deriving DecidableEq

/-- Whether an index entry carries the chunk key `(d, o)`. -/
def keyMatches (d : String) (o : Nat) (e : EmbeddingVector) : Bool :=
  decide (e.document_id = d ∧ e.ordinal = o)

/-- The entries of an index that carry the chunk key `(d, o)`. -/
def entriesFor (d : String) (o : Nat) (idx : List EmbeddingVector) :
    List EmbeddingVector :=
  idx.filter (keyMatches d o)

/-- Modelled from the spec: `Insert(EmbeddingVector)` of the Vector Index
Client (spec §4.3) is an upsert keyed by `(document_id, ordinal)` — the new
entry replaces any existing entry with the same chunk key. -/
def insertVec (v : EmbeddingVector) (idx : List EmbeddingVector) :
    List EmbeddingVector :=
  v :: idx.filter (fun e => ! keyMatches v.document_id v.ordinal e)

lemma filter_of_filter_not (p : EmbeddingVector → Bool)
    (idx : List EmbeddingVector) :
    (idx.filter (fun e => ! p e)).filter p = [] := by
  induction idx with
  | nil => rfl
  | cons a l ih =>
      by_cases h : p a = true <;>
        simp [List.filter_cons, h, ih]

lemma entriesFor_insertVec_self (v : EmbeddingVector)
    (idx : List EmbeddingVector) :
    entriesFor v.document_id v.ordinal (insertVec v idx) = [v] := by
  have hv : keyMatches v.document_id v.ordinal v = true := by
    simp [keyMatches]
  simp [entriesFor, insertVec, List.filter_cons, hv,
    filter_of_filter_not (keyMatches v.document_id v.ordinal) idx]

/-- C1: when the category selection is empty (and the question is non-empty,
so a request is actually issued), the payload `handleQuery` sends to `/query`
has `categories_to_search` equal to the full default list, which contains the
value of every category the system defines — an unrestricted search. -/
theorem handleQuery_empty_selection_searches_all (s : AppState)
    (o : FetchOutcome QueryResponseData) (hq : s.queryQuestion ≠ "")
    (hc : s.searchCategory = []) :
    ∃ r : QueryRequest, (handleQuery s o).2 = some r ∧
      r.categories_to_search = defaultCategoriesToSearch ∧
      ∀ c : Category, c.value ∈ r.categories_to_search := by
  refine ⟨⟨s.queryQuestion, defaultCategoriesToSearch⟩, ?_, rfl, ?_⟩
  · simp [handleQuery, hq, hc]
  · intro c
    cases c <;> simp [Category.value, defaultCategoriesToSearch]

/-- C2: for a non-empty question, the payload sent is exactly
`{question, categories_to_search}` with the submitted question, and on an ok
response carrying `answer` (a non-empty string) and `source_files`, the
handler displays that answer and those sources. -/
theorem handleQuery_api_shape (s : AppState) (d : QueryResponseData)
    (a : String) (fs : List String) (hq : s.queryQuestion ≠ "")
    (ha : d.answer = some a) (ha' : a ≠ "") (hf : d.source_files = some fs) :
    ∃ r : QueryRequest, (handleQuery s (.ok d)).2 = some r ∧
      r.question = s.queryQuestion ∧
      r.categories_to_search =
        (if s.searchCategory.length > 0 then s.searchCategory
         else defaultCategoriesToSearch) ∧
      (handleQuery s (.ok d)).1.answer = a ∧
      (handleQuery s (.ok d)).1.sources = fs := by
  refine ⟨⟨s.queryQuestion,
      if s.searchCategory.length > 0 then s.searchCategory
      else defaultCategoriesToSearch⟩, ?_, rfl, rfl, ?_, ?_⟩ <;>
    simp [handleQuery, hq, jsOr, ha, ha', hf]

/-- C3: for a non-empty question, a non-ok response yields the displayed
answer "Error RAG: <detail>" and a thrown fetch yields "Error connecting to
the model.", and in both cases the sources list is left empty. -/
theorem handleQuery_error_paths (s : AppState) (d : QueryResponseData)
    (hq : s.queryQuestion ≠ "") :
    (handleQuery s (.notOk d)).1.answer =
      "Error RAG: " ++ jsOr d.detail "Unknown error" ∧
    (handleQuery s (.notOk d)).1.sources = [] ∧
    (handleQuery s .threw).1.answer = "Error connecting to the model." ∧
    (handleQuery s .threw).1.sources = [] := by
  refine ⟨?_, ?_, ?_, ?_⟩ <;> simp [handleQuery, hq]

/-- C4: every category value the program attaches — the upload category's
initial value, the upload select option values, and the default query
category list — is a value of the spec's category enumeration
Contract | Medical | Other. -/
theorem category_values_in_enum :
    (∃ c : Category, c.value = uploadCategoryDefault) ∧
    uploadCategoryOptions =
      [Category.Contract.value, Category.Medical.value, Category.Other.value] ∧
    defaultCategoriesToSearch =
      [Category.Contract.value, Category.Medical.value, Category.Other.value] :=
  ⟨⟨Category.Contract, rfl⟩, rfl, rfl⟩

/-- C5: with a file selected, the upload handler sends the file as multipart
form data to the upload endpoint with the chosen category as a query
parameter; an ok response reports the received `job_id`, and a non-ok
response reports the `detail` field as an error (no job id shown). -/
theorem handleFileUpload_spec (s : AppState) (f : FileInfo)
    (du dn : UploadResponseData) (j det : String)
    (hf : s.selectedFile = some f) (hj : du.job_id = some j)
    (hd : dn.detail = some det) (hdet : det ≠ "") :
    (∃ req : UploadRequest, (handleFileUpload s (.ok du)).2 = some req ∧
      req.url = API_URL ++ "/document/upload?category=" ++ s.uploadCategory ∧
      req.formFile = f) ∧
    (handleFileUpload s (.ok du)).1.uploadStatus =
      "✅ Success! Job ID: " ++ j ∧
    (handleFileUpload s (.notOk dn)).1.uploadStatus = "❌ Error: " ++ det := by
  refine ⟨⟨{ url := API_URL ++ "/document/upload?category=" ++ s.uploadCategory
             formFile := f }, ?_, rfl, rfl⟩, ?_, ?_⟩ <;>
    simp [handleFileUpload, hf, jsTemplate, hj, jsOr, hd, hdet]

/-- C6: for an empty question, `handleQuery` returns immediately — the state
(including answer, sources and loading) is unchanged and no request is sent —
and consequently every request it does send has a non-empty question. -/
theorem handleQuery_empty_question_no_request (s : AppState)
    (o : FetchOutcome QueryResponseData) (h : s.queryQuestion = "") :
    handleQuery s o = (s, none) ∧
    ∀ (t : AppState) (u : FetchOutcome QueryResponseData) (r : QueryRequest),
      (handleQuery t u).2 = some r → r.question ≠ "" := by
  constructor
  · simp [handleQuery, h]
  · intro t u r hr
    by_cases ht : t.queryQuestion = ""
    · simp [handleQuery, ht] at hr
    · simp [handleQuery, ht] at hr
      rw [← hr]
      exact ht

/-- C7: the spec-modelled vector index Insert is an idempotent upsert keyed
by (document_id, ordinal): inserting twice with the same key leaves exactly
one entry for that key, holding the latest vector, and any insert leaves
exactly one entry for its key (re-ingestion overwrites without
duplication). -/
theorem insertVec_idempotent_upsert (v1 v2 : EmbeddingVector)
    (idx : List EmbeddingVector) (hd : v1.document_id = v2.document_id)
    (ho : v1.ordinal = v2.ordinal) :
    entriesFor v2.document_id v2.ordinal
        (insertVec v2 (insertVec v1 idx)) = [v2] ∧
    ∀ w : EmbeddingVector,
      entriesFor w.document_id w.ordinal (insertVec w idx) = [w] :=
  ⟨entriesFor_insertVec_self v2 (insertVec v1 idx),
   fun w => entriesFor_insertVec_self w idx⟩

/-- C8: starting from a state whose loading flag is false (the only states in
which a completed prior invocation leaves the app), both handlers end with
loading false on every path — success, non-ok response, thrown fetch, or
early return. -/
theorem handlers_reset_loading (s : AppState)
    (o : FetchOutcome UploadResponseData) (o' : FetchOutcome QueryResponseData)
    (h : s.loading = false) :
    (handleFileUpload s o).1.loading = false ∧
    (handleQuery s o').1.loading = false := by
  constructor
  · cases hf : s.selectedFile <;> cases o <;> simp [handleFileUpload, hf, h]
  · by_cases hq : s.queryQuestion = "" <;> cases o' <;>
      simp [handleQuery, hq, h]

/-- C9: dropping a file whose MIME type is not application/pdf leaves
`selectedFile` unchanged and changes only the status message (to "Only PDF
files are supported.") and the dragging flag; a dropped file becomes the
selected file exactly when its type is application/pdf. -/
theorem onDrop_rejects_non_pdf (s : AppState) (f : FileInfo)
    (h : f.type ≠ "application/pdf") :
    onDrop s (some f) =
      { s with isDragging := false
               uploadStatus := "Only PDF files are supported." } ∧
    (∀ g : FileInfo, g.type = "application/pdf" →
      (onDrop s (some g)).selectedFile = some g) ∧
    (∀ g : FileInfo, (onDrop s (some g)).selectedFile ≠ s.selectedFile →
      g.type = "application/pdf") := by
  refine ⟨by simp [onDrop, h], ?_, ?_⟩
  · intro g hg
    simp [onDrop, hg]
  · intro g hne
    by_cases hg : g.type = "application/pdf"
    · exact hg
    · exact absurd (by simp [onDrop, hg]) hne

lemma round2_close (b d : Nat) (hd : 0 < d) :
    |((((200 * b + d) / (2 * d) : Nat) : ℚ)) / 100 - (b : ℚ) / (d : ℚ)| ≤
      1 / 200 := by
  have h2d : 0 < 2 * d := by omega
  have h1 : (200 * b + d) / (2 * d) * (2 * d) ≤ 200 * b + d :=
    Nat.div_mul_le_self _ _
  have h2 : 200 * b + d < ((200 * b + d) / (2 * d) + 1) * (2 * d) :=
    (Nat.div_lt_iff_lt_mul h2d).mp (Nat.lt_succ_self _)
  have hq1 : ((((200 * b + d) / (2 * d) : Nat)) : ℚ) * (2 * d) ≤
      200 * b + d := by exact_mod_cast h1
  have hq2 : (200 * (b : ℚ) + d) <
      ((((200 * b + d) / (2 * d) : Nat)) + 1) * (2 * d) := by exact_mod_cast h2
  have hdq : (0 : ℚ) < d := by exact_mod_cast hd
  have h3 : ((((200 * b + d) / (2 * d) : Nat)) : ℚ) / 100 - (b : ℚ) / d =
      (2 * d * (((200 * b + d) / (2 * d) : Nat)) - 200 * b) / (200 * d) := by
    field_simp
    ring
  rw [h3, abs_div, abs_of_pos (by positivity : (0 : ℚ) < 200 * d)]
  rw [div_le_div_iff₀ (by positivity) (by norm_num)]
  have habs : |2 * (d : ℚ) * (((200 * b + d) / (2 * d) : Nat)) - 200 * b| ≤
      d := by
    rw [abs_le]
    constructor <;> nlinarith [hq1, hq2]
  nlinarith [habs]

/-- C10: `formatSize` maps 0 to "0 Bytes"; for every byte count `b` with
`1024^i ≤ b < 1024^(i+1)` and `i ≤ 3` it returns a number within half a
hundredth of `b / 1024^i` followed by the unit at index `i` of
Bytes/KB/MB/GB (a genuine unit); and for the input `1024^4` the unit index
runs past the array and the returned string ends in "undefined". -/
theorem formatSize_spec (b i : Nat) (h1 : 1024 ^ i ≤ b)
    (h2 : b < 1024 ^ (i + 1)) (h3 : i ≤ 3) :
    formatSize 0 = "0 Bytes" ∧
    (∃ n : Nat,
      formatSize b = renderCents n ++ " " ++
        (["Bytes", "KB", "MB", "GB"].getD i "undefined") ∧
      (["Bytes", "KB", "MB", "GB"].getD i "undefined") ∈
        ["Bytes", "KB", "MB", "GB"] ∧
      |(n : ℚ) / 100 - (b : ℚ) / 1024 ^ i| ≤ 1 / 200) ∧
    ∃ p : String, formatSize (1024 ^ 4) = p ++ "undefined" := by
  have hpow : 0 < 1024 ^ i := pow_pos (by norm_num) i
  have hb : b ≠ 0 := by omega
  have hlog : Nat.log 1024 b = i := Nat.log_eq_of_pow_le_of_lt_pow h1 h2
  refine ⟨rfl, ⟨(200 * b + 1024 ^ i) / (2 * 1024 ^ i), ?_, ?_, ?_⟩, ?_⟩
  · simp [formatSize, hb, hlog]
  · interval_cases i <;> simp
  · have hc := round2_close b (1024 ^ i) hpow
    have hcast : ((1024 ^ i : Nat) : ℚ) = (1024 : ℚ) ^ i := by
      push_cast
      ring
    rw [hcast] at hc
    exact hc
  · refine ⟨"1 ", ?_⟩
    have hlog4 : Nat.log 1024 (1099511627776 : ℕ) = 4 := by
      have h := Nat.log_pow (show 1 < 1024 by norm_num) 4
      norm_num at h
      exact h
    have e1 : formatSize (1024 ^ 4) = "1 undefined" := by
      norm_num [formatSize, hlog4, renderCents]
      rfl
    rw [e1]
    rfl

/-- A state with a non-empty question and no category selection, used to
instantiate the query-handler theorems. -/
def sampleQueryState : AppState := { initialState with queryQuestion := "Q" }

/-- A PDF file value used to instantiate the upload theorems. -/
def sampleFile : FileInfo := ⟨"doc.pdf", 2048, "application/pdf"⟩

/-- A state with a file selected, used to instantiate the upload theorems. -/
def sampleUploadState : AppState :=
  { initialState with selectedFile := some sampleFile }

/-- A non-PDF file value used to instantiate the drop-handler theorem. -/
def sampleTxtFile : FileInfo := ⟨"notes.txt", 10, "text/plain"⟩

/-- A query response body carrying only an error detail. -/
def sampleErrData : QueryResponseData := ⟨none, none, some "boom"⟩

/-- Two index entries sharing the chunk key ("doc", 0) with different
vectors. -/
def vecA : EmbeddingVector := ⟨"doc", 0, [1], "Umowy"⟩

/-- The later of the two entries with chunk key ("doc", 0). -/
def vecB : EmbeddingVector := ⟨"doc", 0, [2], "Umowy"⟩

theorem handleQuery_empty_selection_searches_all_witness :
    ∃ r : QueryRequest,
      (handleQuery sampleQueryState FetchOutcome.threw).2 = some r ∧
      r.categories_to_search = defaultCategoriesToSearch ∧
      ∀ c : Category, c.value ∈ r.categories_to_search :=
  handleQuery_empty_selection_searches_all sampleQueryState FetchOutcome.threw
    (by decide) rfl

theorem handleQuery_api_shape_witness :
    ∃ r : QueryRequest,
      (handleQuery sampleQueryState
        (.ok ⟨some "A", some ["doc1"], none⟩)).2 = some r ∧
      r.question = sampleQueryState.queryQuestion ∧
      r.categories_to_search =
        (if sampleQueryState.searchCategory.length > 0 then
          sampleQueryState.searchCategory
         else defaultCategoriesToSearch) ∧
      (handleQuery sampleQueryState
        (.ok ⟨some "A", some ["doc1"], none⟩)).1.answer = "A" ∧
      (handleQuery sampleQueryState
        (.ok ⟨some "A", some ["doc1"], none⟩)).1.sources = ["doc1"] :=
  handleQuery_api_shape sampleQueryState ⟨some "A", some ["doc1"], none⟩
    "A" ["doc1"] (by decide) rfl (by decide) rfl

theorem handleQuery_error_paths_witness :
    (handleQuery sampleQueryState (.notOk sampleErrData)).1.answer =
      "Error RAG: " ++ jsOr sampleErrData.detail "Unknown error" ∧
    (handleQuery sampleQueryState (.notOk sampleErrData)).1.sources = [] ∧
    (handleQuery sampleQueryState FetchOutcome.threw).1.answer =
      "Error connecting to the model." ∧
    (handleQuery sampleQueryState FetchOutcome.threw).1.sources = [] :=
  handleQuery_error_paths sampleQueryState sampleErrData (by decide)

theorem handleFileUpload_spec_witness :
    (∃ req : UploadRequest,
      (handleFileUpload sampleUploadState
        (.ok ⟨some "job-1", none⟩)).2 = some req ∧
      req.url = API_URL ++ "/document/upload?category=" ++
        sampleUploadState.uploadCategory ∧
      req.formFile = sampleFile) ∧
    (handleFileUpload sampleUploadState
      (.ok ⟨some "job-1", none⟩)).1.uploadStatus =
        "✅ Success! Job ID: " ++ "job-1" ∧
    (handleFileUpload sampleUploadState
      (.notOk ⟨none, some "bad"⟩)).1.uploadStatus = "❌ Error: " ++ "bad" :=
  handleFileUpload_spec sampleUploadState sampleFile ⟨some "job-1", none⟩
    ⟨none, some "bad"⟩ "job-1" "bad" rfl rfl rfl (by decide)

theorem handleQuery_empty_question_no_request_witness :
    handleQuery initialState FetchOutcome.threw = (initialState, none) ∧
    ∀ (t : AppState) (u : FetchOutcome QueryResponseData) (r : QueryRequest),
      (handleQuery t u).2 = some r → r.question ≠ "" :=
  handleQuery_empty_question_no_request initialState FetchOutcome.threw rfl

theorem insertVec_idempotent_upsert_witness :
    entriesFor vecB.document_id vecB.ordinal
        (insertVec vecB (insertVec vecA [])) = [vecB] ∧
    ∀ w : EmbeddingVector,
      entriesFor w.document_id w.ordinal (insertVec w []) = [w] :=
  insertVec_idempotent_upsert vecA vecB [] rfl rfl

theorem handlers_reset_loading_witness :
    (handleFileUpload initialState FetchOutcome.threw).1.loading = false ∧
    (handleQuery initialState FetchOutcome.threw).1.loading = false :=
  handlers_reset_loading initialState FetchOutcome.threw FetchOutcome.threw rfl

theorem onDrop_rejects_non_pdf_witness :
    onDrop initialState (some sampleTxtFile) =
      { initialState with isDragging := false
                          uploadStatus := "Only PDF files are supported." } ∧
    (∀ g : FileInfo, g.type = "application/pdf" →
      (onDrop initialState (some g)).selectedFile = some g) ∧
    (∀ g : FileInfo,
      (onDrop initialState (some g)).selectedFile ≠
        initialState.selectedFile → g.type = "application/pdf") :=
  onDrop_rejects_non_pdf initialState sampleTxtFile (by decide)

theorem formatSize_spec_witness :
    formatSize 0 = "0 Bytes" ∧
    (∃ n : Nat,
      formatSize 1536 = renderCents n ++ " " ++
        (["Bytes", "KB", "MB", "GB"].getD 1 "undefined") ∧
      (["Bytes", "KB", "MB", "GB"].getD 1 "undefined") ∈
        ["Bytes", "KB", "MB", "GB"] ∧
      |(n : ℚ) / 100 - ((1536 : ℕ) : ℚ) / 1024 ^ 1| ≤ 1 / 200) ∧
    ∃ p : String, formatSize (1024 ^ 4) = p ++ "undefined" :=
  formatSize_spec 1536 1 (by norm_num) (by norm_num) (by norm_num)

end DocuFlow
